import Mathlib

/-!
Shallow embedding of the decision engine in `heatcontrol.py` (repository
pontus/heatcontrol) and verification of the frozen claims about it.

Conventions of the embedding:
* Python floats are modelled as `ℚ`; Python `int(x)` (truncation toward
  zero) is `pyint`.
* `datetime` values are modelled by the `Timestamp` record holding the
  local calendar fields the source actually reads (`.day`, `.hour`).
* Functions reading the wall clock (`comp_hour`, `datetime.now`) take the
  current continuous hour `t`, the current local date `today`, or the
  weekday digit `dow` as explicit parameters.
* Code that can raise (`p[0]` on an empty list) returns `Option`.
* `list.sort` mutates its argument, so the two classifier functions return
  both the post-state of their list argument and their filtered result.
-/

/-- Local timestamp fields used by the source (`timestamp.day`, `timestamp.hour`,
`datetime.now().day`). -/
structure Timestamp where
  year : Int
  month : Int
  day : Int
  hour : Int
deriving DecidableEq, Repr

/-- One price point, `class Price` (heatcontrol.py lines 33-35). -/
structure Price where
  value : ℚ
  timestamp : Timestamp
deriving DecidableEq, Repr

/-- Python `class NoNeed` (lines 38-41); the source field `end` is named `stop` here. -/
structure NoNeed where
  start : ℚ
  stop : ℚ
  weekdays : String
deriving DecidableEq, Repr

/-- Python `class TempAdjustment` (lines 44-48). -/
structure TempAdjustment where
  start : ℚ
  stop : ℚ
  weekdays : String
  adjustment : ℚ
deriving DecidableEq, Repr

/-- Python `class Prep` (lines 51-55). -/
structure Prep where
  earliest : ℚ
  duration : ℚ
  needhour : ℚ
  preptime : ℚ
deriving DecidableEq, Repr

/-- Python `class Override` (lines 58-63).  The `start`/`end` strings are modelled by
the result of `dateutil.parser.parse(...).astimezone().timestamp()`: `some s`
for a string parsing to epoch-seconds `s`, `none` for an unparseable string
(the parse raises and the `except` clause skips the entry). -/
structure Override where
  start : Option ℚ
  stop : Option ℚ
  wwtemp : ℚ
  curve : ℚ
  para : ℚ
deriving DecidableEq, Repr

/-- Python `class HeatValues` (lines 66-68): the two integer register commands. -/
structure HeatValues where
  curve : Int
  parallel : Int
deriving DecidableEq, Repr

/-- Python `class Config` (lines 75-102). -/
structure Config where
  cutter : ℚ
  maxdiff : ℚ
  getup : ℚ
  bedtime : ℚ
  heatcooldown : ℚ
  heatup : ℚ
  wwcooldown : ℚ
  wwup : ℚ
  lowprice : ℚ
  highprice : ℚ
  blockprice : ℚ
  heatdefaultcurve : ℚ
  heatdefaultpara : ℚ
  heatcheappara : ℚ
  heatexpensivepara : ℚ
  heatcheapcurve : ℚ
  heatexpensivecurve : ℚ
  wwcheaptemp : ℚ
  wwexpensivetemp : ℚ
  wwdefaulttemp : ℚ
  noneed : List NoNeed
  tempadjustments : List TempAdjustment
  prepww : List Prep
  opttemp : ℚ
  tempexpensive : ℚ
  tempcheap : ℚ
  tempdefault : ℚ

/-- Python `class NetConfig` (lines 105-107).  The `override` key may be absent from
the fetched JSON document, which `override_active` tests with
`if not "override" in config`; absence is modelled by `none`. -/
structure NetConfig where
  config : Config
  override : Option (List Override)

/-- The hard-coded fallback configuration `defaults` (lines 113-141). -/
def defaults : Config where
  cutter := 60
  maxdiff := 50
  getup := 5
  bedtime := 22
  heatcooldown := 2
  heatup := 2
  wwcooldown := 2
  wwup := 1
  lowprice := 35
  highprice := 80
  blockprice := 150
  heatdefaultcurve := 22
  heatdefaultpara := 0
  heatcheappara := 20
  heatexpensivepara := -40
  heatcheapcurve := 3
  heatexpensivecurve := -4
  wwcheaptemp := 54
  wwexpensivetemp := 35
  wwdefaulttemp := 42
  noneed := []
  tempadjustments := []
  prepww := []
  opttemp := 41/2
  tempexpensive := 99/5
  tempcheap := 21
  tempdefault := 20

/-- Python `int(q)` on a float: truncation toward zero. -/
def pyint (q : ℚ) : Int :=
  if q < 0 then -⌊-q⌋ else ⌊q⌋

/-- Comparison key of the in-place `p.sort(key=lambda x: x["value"])`
(lines 323 and 346). -/
def priceLE (a b : Price) : Prop :=
  a.value ≤ b.value

instance : DecidableRel priceLE :=
  fun a b => inferInstanceAs (Decidable (a.value ≤ b.value))

instance : IsTotal Price priceLE :=
  ⟨fun a b => le_total a.value b.value⟩

instance : IsTrans Price priceLE :=
  ⟨fun _ _ _ h1 h2 => le_trans h1 h2⟩

/-- The in-place stable ascending value sort `p.sort(key=lambda x: x["value"])`;
Python sort is stable, as is `List.insertionSort`. -/
def sortByValue (p : List Price) : List Price :=
  p.insertionSort priceLE

/-- The low-side cutpoint computation of `filter_prices_low` (lines 327-334),
as a function of the series minimum `minp`. -/
def low_cutpoint (minp : ℚ) (cfg : Config) : ℚ :=
  if minp < 0 then cfg.maxdiff
  else min (minp * (100 + cfg.cutter) / 100) (min (minp + cfg.maxdiff) cfg.blockprice)

/-- The high-side cutpoint computation of `filter_prices_high` (lines 350-358);
`1.4` is the rational `14/10`. -/
def high_cutpoint (minp : ℚ) (cfg : Config) : ℚ :=
  if minp < 0 then cfg.maxdiff
  else min (minp * (100 + 14/10 * cfg.cutter) / 100)
    (min (minp + 14/10 * cfg.maxdiff) (min cfg.blockprice cfg.highprice))

/-- Embedding of `filter_prices_low` (lines 321-341).  The source first sorts `p` in place by
value, then reads `p[0]["value"]` (raising `IndexError` on an empty list, hence
`Option`), and returns the filtered list.  The first component of the result is
the post-state of the list argument, the second the returned classification. -/
def filter_prices_low (p : List Price) (cfg : Config) : Option (List Price × List Price) :=
  match sortByValue p with
  | [] => none
  | x :: xs =>
    let cutpoint := low_cutpoint x.value cfg
    some (x :: xs,
      (x :: xs).filter (fun y => decide (y.value < cutpoint ∨ y.value < cfg.lowprice)))

/-- Embedding of `filter_prices_high` (lines 344-365), same conventions as
`filter_prices_low`. -/
def filter_prices_high (p : List Price) (cfg : Config) : Option (List Price × List Price) :=
  match sortByValue p with
  | [] => none
  | x :: xs =>
    let cutpoint := high_cutpoint x.value cfg
    some (x :: xs, (x :: xs).filter (fun y => decide (y.value > cutpoint)))

/-- Membership of a point in the classification returned by
`filter_prices_low` (`false` when the call would raise). -/
def memLow (x : Price) (p : List Price) (cfg : Config) : Bool :=
  match filter_prices_low p cfg with
  | none => false
  | some r => decide (x ∈ r.2)

/-- Membership of a point in the classification returned by
`filter_prices_high` (`false` when the call would raise). -/
def memHigh (x : Price) (p : List Price) (cfg : Config) : Bool :=
  match filter_prices_high p cfg with
  | none => false
  | some r => decide (x ∈ r.2)

/-- Embedding of `price_apply` (lines 309-313): a point is kept for the
today-series when its timestamp's day-of-month equals the current
day-of-month.  The parameter `today` stands for `datetime.datetime.now()`;
the `config` argument is unused, as in the source. -/
def price_apply (x : Price) (config : Config) (today : Timestamp) : Bool :=
  x.timestamp.day == today.day

/-- Comparison definition following the spec's words ("entries whose local
day matches today", "falls on today's local date"): two timestamps lie on
the same local calendar date when year, month and day all agree.  Used only
to compare the spec's reading with `price_apply`. -/
def sameLocalDate (a b : Timestamp) : Bool :=
  a.year == b.year && a.month == b.month && a.day == b.day

/-- Embedding of `check_noneed` (lines 443-453); `t` is `comp_hour()` and
`dow` the single digit of `str(datetime.datetime.now().isoweekday())`,
tested by substring containment in the window's `weekdays` string. -/
def check_noneed (nn : NoNeed) (t : ℚ) (dow : Char) : Bool :=
  nn.weekdays.contains dow && decide (nn.start ≤ t ∧ nn.stop ≥ t)

/-- Embedding of `water_prep_needed` (lines 368-440); `t` is `comp_hour()`.
Mirrors the source exactly, including the mis-indented
`return (True, False)` at line 424, which sits inside the `for p in
all_prices` loop but outside the `if` guarding it, and therefore fires on
the first loop iteration whenever `all_prices` is non-empty. -/
def water_prep_needed (low_prices all_prices : List Price)
    (needhour earliest duration preptime : ℚ) (config : Config) (t : ℚ) :
    Bool × Bool :=
  if t > needhour + duration then (false, false)
  else if t < earliest then (false, false)
  else if t ≥ needhour then
    if all_prices.any fun p =>
        p.timestamp.hour == pyint t && decide (p.value > config.blockprice) then
      (true, false)
    else (true, true)
  else
    match low_prices.filter fun x =>
        decide ((x.timestamp.hour : ℚ) < needhour) && decide (pyint t ≤ x.timestamp.hour) with
    | [] =>
      if t ≥ needhour - preptime then
        match all_prices with
        | [] => (true, true)
        | _ :: _ => (true, false)
      else (true, false)
    | x :: _ =>
      if x.timestamp.hour ≠ pyint t then (true, false) else (true, true)

/-- The shared prelude of `get_water_temp` (lines 466-474) and
`get_heat_curve` (lines 656-663): restrict the fetched series to today via
`price_apply`, then run both classifiers.  The two classifier calls sort
the same list object in place, so the post-state of the first call is the
argument of the second; the first component of the result is the final
state of the local variable `prices`. -/
def classify (all_prices : List Price) (config : Config) (today : Timestamp) :
    Option (List Price × List Price × List Price) :=
  let prices := all_prices.filter fun x => price_apply x config today
  match filter_prices_low prices config with
  | none => none
  | some (prices1, prices_low) =>
    match filter_prices_high prices1 config with
    | none => none
    | some (prices2, prices_high) => some (prices2, prices_low, prices_high)

/-- Embedding of `get_water_temp` (lines 456-514).  The value-sorted today
list (final state of `prices`) is what the source passes to
`water_prep_needed` as its `low_prices` argument.  In the bedtime branch
the source returns the Python constant `False` from a `-> float` function;
numerically `False == 0`, modelled as `some 0`. -/
def get_water_temp (all_prices : List Price) (config : Config) (t : ℚ)
    (today : Timestamp) (dow : Char) : Option ℚ :=
  if t ≥ config.bedtime - config.wwcooldown then some 0
  else
    match classify all_prices config today with
    | none => none
    | some (prices2, prices_low, prices_high) =>
      if config.noneed.any fun nn => check_noneed nn t dow then
        some config.wwexpensivetemp
      else if config.prepww.any fun w =>
          let r := water_prep_needed prices2 all_prices
            w.needhour w.earliest w.duration w.preptime config t
          r.1 && r.2 then
        some config.wwcheaptemp
      else if prices_low.any fun p => p.timestamp.hour == pyint t then
        some config.wwcheaptemp
      else if prices_high.any fun p => p.timestamp.hour == pyint t then
        some config.wwexpensivetemp
      else some config.wwdefaulttemp

/-- Embedding of `get_heat_curve` (lines 650-689). -/
def get_heat_curve (all_prices : List Price) (config : Config) (t : ℚ)
    (today : Timestamp) : Option HeatValues :=
  let c : HeatValues := ⟨pyint config.heatdefaultcurve, pyint config.heatdefaultpara⟩
  match classify all_prices config today with
  | none => none
  | some (_, prices_low, prices_high) =>
    if prices_low.any fun p => pyint t == p.timestamp.hour then
      some ⟨c.curve + pyint config.heatcheapcurve, c.parallel + pyint config.heatcheappara⟩
    else if prices_high.any fun p => pyint t == p.timestamp.hour then
      some ⟨c.curve + pyint config.heatexpensivecurve,
        c.parallel + pyint config.heatexpensivepara⟩
    else some c

/-- Result type of `override_active` (lines 262-290): the function returns a
2-tuple `(False, 0)` on one path (line 265) and 3-tuples everywhere else,
so its result is a sum of the two shapes. -/
inductive OverrideResult where
  | pair (active : Bool) (temp : ℚ)
  | triple (active : Bool) (temp : ℚ) (hv : HeatValues)
deriving DecidableEq, Repr

/-- The scan loop of `override_active` (lines 268-290): first entry whose
two timestamps parse and whose window contains `now` wins; an entry whose
timestamp parsing raises lands in the bare `except` and is skipped; when no
entry matches the fall-through result is `(False, 0, HeatValues(0, 0))`. -/
def override_scan : List Override → ℚ → OverrideResult
  | [], _ => .triple false 0 ⟨0, 0⟩
  | p :: rest, now =>
    match p.start, p.stop with
    | some s, some e =>
      if s ≤ now ∧ now ≤ e then
        .triple true p.wwtemp ⟨pyint (p.curve * 10), pyint (p.para * 10)⟩
      else override_scan rest now
    | _, _ => override_scan rest now

/-- Embedding of `override_active` (lines 262-290); `now` is
`datetime.datetime.now().timestamp()`.  When the `override` key is absent
the source returns the bare pair `(False, 0)` (line 265). -/
def override_active (config : NetConfig) (now : ℚ) : OverrideResult :=
  match config.override with
  | none => .pair false 0
  | some l => override_scan l now

/-- One named module reading from `natemps` (`fill_netatmo_module_data`,
lines 226-238): a temperature and its epoch observation time. -/
structure Reading where
  temperature : ℚ
  time : ℚ
deriving DecidableEq, Repr

/-- Embedding of `get_heat_curve_from_temp` (lines 692-712): `uppe` is
`natemps["uppe"]` (`none` when the module is absent) and `nu` is
`time.time()`.  On a fresh reading the source assigns
`c["parallel"] = int(opttemp - 20) * 10` (truncation before the factor of
ten, overwriting the prior value) and `c["curve"] += int(10 * difftemp)`. -/
def get_heat_curve_from_temp (uppe : Option Reading) (nu : ℚ)
    (c : HeatValues) (opttemp : ℚ) : HeatValues :=
  match uppe with
  | none => c
  | some r =>
    if nu - r.time < 3600 then
      { curve := c.curve + pyint (10 * (opttemp - r.temperature)),
        parallel := pyint (opttemp - 20) * 10 }
    else c

/-! Supporting lemmas shared by the claim theorems. -/

/-- Truncation of an integer-valued rational is the integer itself. -/
theorem pyint_intCast (n : Int) : pyint (n : ℚ) = n := by
  rw [pyint]
  split
  · rw [← Int.cast_neg, Int.floor_intCast, neg_neg]
  · exact Int.floor_intCast n

/-- The in-place value sort is a permutation of the original list. -/
theorem sortByValue_perm (p : List Price) : (sortByValue p).Perm p :=
  List.perm_insertionSort priceLE p

/-- The head of the value-sorted list carries the minimum value of the
original list. -/
theorem sortByValue_head_le {p : List Price} {m : Price} {xs : List Price}
    (h : sortByValue p = m :: xs) : ∀ x ∈ p, m.value ≤ x.value := by
  intro x hx
  have hs : List.Sorted priceLE (sortByValue p) := List.sorted_insertionSort priceLE p
  rw [h] at hs
  have hx2 : x ∈ m :: xs := by
    have hx1 : x ∈ sortByValue p := (sortByValue_perm p).mem_iff.mpr hx
    rwa [h] at hx1
  rcases List.mem_cons.mp hx2 with hx3 | hx3
  · exact le_of_eq (by rw [hx3])
  · exact List.rel_of_sorted_cons hs x hx3

/-- Inversion of a successful `filter_prices_low` call: the post-state is
the value-sorted input, and the output is the filter by the cutpoint
computed from the sorted head. -/
theorem filter_low_some {p : List Price} {cfg : Config} {m : Price} {xs out : List Price}
    (h : filter_prices_low p cfg = some (m :: xs, out)) :
    sortByValue p = m :: xs ∧
      out = (m :: xs).filter fun y =>
        decide (y.value < low_cutpoint m.value cfg ∨ y.value < cfg.lowprice) := by
  cases hsp : sortByValue p with
  | nil => simp [filter_prices_low, hsp] at h
  | cons a l =>
    simp only [filter_prices_low, hsp, Option.some.injEq, Prod.mk.injEq,
      List.cons.injEq] at h
    obtain ⟨⟨ham, hlx⟩, hout⟩ := h
    subst ham; subst hlx
    exact ⟨rfl, hout.symm⟩

/-- Inversion of a successful `filter_prices_high` call. -/
theorem filter_high_some {p : List Price} {cfg : Config} {m : Price} {xs out : List Price}
    (h : filter_prices_high p cfg = some (m :: xs, out)) :
    sortByValue p = m :: xs ∧
      out = (m :: xs).filter fun y => decide (y.value > high_cutpoint m.value cfg) := by
  cases hsp : sortByValue p with
  | nil => simp [filter_prices_high, hsp] at h
  | cons a l =>
    simp only [filter_prices_high, hsp, Option.some.injEq, Prod.mk.injEq,
      List.cons.injEq] at h
    obtain ⟨⟨ham, hlx⟩, hout⟩ := h
    subst ham; subst hlx
    exact ⟨rfl, hout.symm⟩

/-- A successful `filter_prices_low` call turns its list argument into its
value-sorted permutation and returns a sublist of it. -/
theorem filter_low_post {p : List Price} {cfg : Config} {s out : List Price}
    (h : filter_prices_low p cfg = some (s, out)) :
    sortByValue p = s ∧ out.Sublist s := by
  cases hsp : sortByValue p with
  | nil => simp [filter_prices_low, hsp] at h
  | cons a l =>
    simp only [filter_prices_low, hsp, Option.some.injEq, Prod.mk.injEq] at h
    obtain ⟨h1, h2⟩ := h
    subst h1
    exact ⟨rfl, h2 ▸ List.filter_sublist _⟩

/-- A successful `filter_prices_high` call turns its list argument into its
value-sorted permutation and returns a sublist of it. -/
theorem filter_high_post {p : List Price} {cfg : Config} {s out : List Price}
    (h : filter_prices_high p cfg = some (s, out)) :
    sortByValue p = s ∧ out.Sublist s := by
  cases hsp : sortByValue p with
  | nil => simp [filter_prices_high, hsp] at h
  | cons a l =>
    simp only [filter_prices_high, hsp, Option.some.injEq, Prod.mk.injEq] at h
    obtain ⟨h1, h2⟩ := h
    subst h1
    exact ⟨rfl, h2 ▸ List.filter_sublist _⟩

/-- Both classifications returned by `classify` draw their points from the
fetched series. -/
theorem classify_subsets {all_prices : List Price} {cfg : Config} {today : Timestamp}
    {p2 low high : List Price}
    (h : classify all_prices cfg today = some (p2, low, high)) :
    low ⊆ all_prices ∧ high ⊆ all_prices := by
  simp only [classify] at h
  cases hfl : filter_prices_low (all_prices.filter fun x => price_apply x cfg today) cfg with
  | none => rw [hfl] at h; simp at h
  | some r =>
    obtain ⟨s1, low1⟩ := r
    simp only [hfl] at h
    cases hfh : filter_prices_high s1 cfg with
    | none => rw [hfh] at h; simp at h
    | some r2 =>
      obtain ⟨s2, high1⟩ := r2
      simp only [hfh, Option.some.injEq, Prod.mk.injEq] at h
      obtain ⟨hp2, hlow, hhigh⟩ := h
      subst hp2; subst hlow; subst hhigh
      obtain ⟨hs1, hsub1⟩ := filter_low_post hfl
      obtain ⟨hs2, hsub2⟩ := filter_high_post hfh
      have hfsub : (all_prices.filter fun x => price_apply x cfg today) ⊆ all_prices :=
        (List.filter_sublist _).subset
      constructor
      · exact hsub1.subset.trans ((hs1 ▸ sortByValue_perm _).subset.trans hfsub)
      · refine hsub2.subset.trans ((hs2 ▸ sortByValue_perm s1).subset.trans ?_)
        exact (hs1 ▸ sortByValue_perm _).subset.trans hfsub

/-! Claim C1. -/

/-- C1, counterexample: the low and high classifications are NOT always
disjoint.  On the series with values 100 and 120 under the default config,
the low cutpoint is `min(160, 150, 150) = 150` and the high cutpoint is
`min(184, 170, 150, 80) = 80`, so the 120-point is classified both low
(120 < 150) and high (120 > 80). -/
theorem low_high_overlap_cex :
    memLow ⟨120, ⟨2025, 10, 12, 1⟩⟩
      [⟨100, ⟨2025, 10, 12, 0⟩⟩, ⟨120, ⟨2025, 10, 12, 1⟩⟩] defaults = true ∧
    memHigh ⟨120, ⟨2025, 10, 12, 1⟩⟩
      [⟨100, ⟨2025, 10, 12, 0⟩⟩, ⟨120, ⟨2025, 10, 12, 1⟩⟩] defaults = true := by
  constructor <;>
    norm_num [memLow, memHigh, filter_prices_low, filter_prices_high, sortByValue,
      priceLE, low_cutpoint, high_cutpoint, defaults]

/-- C1, amended: the two classifications are disjoint whenever the high
cutpoint computed from the series minimum is at least the low cutpoint and
at least `lowprice` (the unconditioned `value < lowprice` escape in the low
filter and the `highprice` bound in the high cutpoint are what break
disjointness in general). -/
theorem low_high_disjoint_of_cutpoints (p : List Price) (cfg : Config)
    (m : Price) (xs oL oH : List Price)
    (hL : filter_prices_low p cfg = some (m :: xs, oL))
    (hH : filter_prices_high p cfg = some (m :: xs, oH))
    (h1 : low_cutpoint m.value cfg ≤ high_cutpoint m.value cfg)
    (h2 : cfg.lowprice ≤ high_cutpoint m.value cfg) :
    ∀ x ∈ oL, x ∉ oH := by
  obtain ⟨-, hoL⟩ := filter_low_some hL
  obtain ⟨-, hoH⟩ := filter_high_some hH
  intro x hxL hxH
  rw [hoL] at hxL
  rw [hoH] at hxH
  obtain ⟨-, hpL⟩ := List.mem_filter.mp hxL
  obtain ⟨-, hpH⟩ := List.mem_filter.mp hxH
  rw [decide_eq_true_eq] at hpL hpH
  rcases hpL with hp | hp
  · exact absurd hpH (by linarith)
  · exact absurd hpH (by linarith)

/-- C1, witness: on the series 40, 50, 90 under the default config the
cutpoint hypotheses hold (low cutpoint 64, high cutpoint 73.6), the low
classification is the 40- and 50-points, the high classification is the
90-point, and the theorem gives that the low 40-point is not high. -/
theorem low_high_disjoint_app :
    (⟨40, ⟨2025, 10, 12, 0⟩⟩ : Price) ∉ ([⟨90, ⟨2025, 10, 12, 2⟩⟩] : List Price) := by
  refine low_high_disjoint_of_cutpoints
    [⟨40, ⟨2025, 10, 12, 0⟩⟩, ⟨50, ⟨2025, 10, 12, 1⟩⟩, ⟨90, ⟨2025, 10, 12, 2⟩⟩] defaults
    ⟨40, ⟨2025, 10, 12, 0⟩⟩ [⟨50, ⟨2025, 10, 12, 1⟩⟩, ⟨90, ⟨2025, 10, 12, 2⟩⟩]
    [⟨40, ⟨2025, 10, 12, 0⟩⟩, ⟨50, ⟨2025, 10, 12, 1⟩⟩] [⟨90, ⟨2025, 10, 12, 2⟩⟩]
    ?_ ?_ ?_ ?_ ⟨40, ⟨2025, 10, 12, 0⟩⟩ ?_
  · norm_num [filter_prices_low, sortByValue, priceLE, low_cutpoint, defaults]
  · norm_num [filter_prices_high, sortByValue, priceLE, high_cutpoint, defaults]
  · norm_num [low_cutpoint, high_cutpoint, defaults]
  · norm_num [low_cutpoint, high_cutpoint, defaults]
  · decide

/-! Claim C2. -/

/-- C2: evaluation of `water_prep_needed` at the claim's own scenario
(needhour 7, duration 1, earliest 2, preptime 1, `t = 6.5`, no low hour
left before 7, current-hour price 100 below `blockprice = 150`).  The
claim and the source's adjacent comment and log message say the result is
`(true, true)`, but the mis-indented `return (True, False)` at line 424 of
the source fires on the first iteration over `all_prices`, so the code
yields `(true, false)`. -/
theorem prep_empty_branch_blocked_eval :
    water_prep_needed [] [⟨100, ⟨2025, 10, 12, 6⟩⟩] 7 2 1 1 defaults (13/2) =
      (true, false) := by
  norm_num [water_prep_needed, pyint, defaults]

/-! Claim C3. -/

/-- C3, counterexample: with a fresh reading and `optimalTemp = 20.5`, the
code sets `parallel` to `int(20.5 - 20) * 10 = 0`, not
`int((20.5 - 20) * 10) = 5` as the claim states. -/
theorem feedback_parallel_scale_cex :
    (get_heat_curve_from_temp (some ⟨19, 0⟩) 0 ⟨22, 7⟩ (41/2)).parallel ≠
      pyint (((41/2 : ℚ) - 20) * 10) := by
  norm_num [get_heat_curve_from_temp, pyint]

/-- C3, amended: for every fresh reading (age under 3600 s) the feedback
correction overwrites `parallel` with `int(optimalTemp - 20) * 10`
(truncation before the factor of ten) and adds
`int(10 * (optimalTemp - reading.value))` to the curve. -/
theorem feedback_fresh_update (r : Reading) (nu : ℚ) (c : HeatValues) (opttemp : ℚ)
    (h : nu - r.time < 3600) :
    get_heat_curve_from_temp (some r) nu c opttemp =
      ⟨c.curve + pyint (10 * (opttemp - r.temperature)), pyint (opttemp - 20) * 10⟩ := by
  simp [get_heat_curve_from_temp, h]

/-- C3, witness: a reading of age 0 with value 19 against optimal 21 turns
curve 22 into 22 + 20 = 42 and parallel into 10. -/
theorem feedback_fresh_update_app :
    (0 : ℚ) - 0 < 3600 ∧
    get_heat_curve_from_temp (some ⟨19, 0⟩) 0 ⟨22, 7⟩ 21 =
      ⟨22 + pyint (10 * (21 - 19)), pyint ((21 : ℚ) - 20) * 10⟩ :=
  ⟨by norm_num, feedback_fresh_update ⟨19, 0⟩ 0 ⟨22, 7⟩ 21 (by norm_num)⟩

/-! Claim C4. -/

/-- C4: when the `override` key is absent, `override_active` returns the
bare 2-tuple `(False, 0)` (line 265 of the source), not the triple the
claim (and the function's own `-> Tuple[bool, float, HeatValues]`
annotation, and the 3-way unpacking at line 723) requires.  The other two
parts of the claim hold and are evaluated here as well: an empty override
list yields the triple `(false, 0, HeatValues(0, 0))`, and an entry with
an unparseable timestamp is skipped while the scan continues to a later
matching entry. -/
theorem override_missing_key_pair_eval :
    override_active ⟨defaults, none⟩ 0 = .pair false 0 ∧
    override_active ⟨defaults, some []⟩ 0 = .triple false 0 ⟨0, 0⟩ ∧
    override_active
        ⟨defaults, some [⟨none, some 10, 99, 99, 99⟩, ⟨some 0, some 10, 50, 22, 1⟩]⟩ 5 =
      .triple true 50 ⟨220, 10⟩ := by
  refine ⟨rfl, rfl, ?_⟩
  norm_num [override_active, override_scan, pyint]

/-! Claim C5. -/

/-- C5: `get_water_temp` (line 485) passes the full value-sorted today
series as the `low_prices` argument of `water_prep_needed`, not the output
of the low classifier.  At `t = 6` with prep window (earliest 2,
duration 1, needhour 8, preptime 2) and today series 50 at hour 10, 90 at
hour 7, 100 at hour 6 (value-sorted, as after the in-place sorts), the code
finds the non-empty candidate list [90@7, 100@6], whose head is not the
current hour, and answers `(true, false)` — first conjunct.  The low
classifier's output restricted to the same window `[6, 8)` is empty
(only the 50-point is low and its hour is 10) — second conjunct — so under
the claim's reading the empty-candidate branch would have applied instead. -/
theorem prep_receives_full_series_eval :
    water_prep_needed
      [⟨50, ⟨2025, 10, 12, 10⟩⟩, ⟨90, ⟨2025, 10, 12, 7⟩⟩, ⟨100, ⟨2025, 10, 12, 6⟩⟩]
      [⟨50, ⟨2025, 10, 12, 10⟩⟩, ⟨90, ⟨2025, 10, 12, 7⟩⟩, ⟨100, ⟨2025, 10, 12, 6⟩⟩]
      8 2 1 2 defaults 6 = (true, false) ∧
    (filter_prices_low
        [⟨50, ⟨2025, 10, 12, 10⟩⟩, ⟨90, ⟨2025, 10, 12, 7⟩⟩, ⟨100, ⟨2025, 10, 12, 6⟩⟩]
        defaults).map
      (fun r => r.2.filter fun x =>
        decide ((x.timestamp.hour : ℚ) < 8) && decide (pyint 6 ≤ x.timestamp.hour)) =
      some [] := by
  constructor
  · norm_num [water_prep_needed, pyint, defaults]
  · norm_num [filter_prices_low, sortByValue, priceLE, low_cutpoint, pyint, defaults]

/-! Claim C6. -/

/-- Test configuration for claim C6: the defaults plus one prep window
(earliest 2, duration 1, needhour 12, preptime 1). -/
def cfgPrepNoon : Config :=
  { defaults with prepww := [⟨2, 1, 12, 1⟩] }

/-- C6, counterexample: an authoritative prep answer is NOT decisive.  At
`t = 10` the sole prep window answers `(authoritative, heat) =
(true, false)` — second conjunct — yet `get_water_temp` goes on to the
price fallback, finds hour 10 among the low prices, and returns
`wwcheaptemp = 54` — first conjunct — contradicting the claim that nothing
can change the decision after an authoritative window has answered. -/
theorem water_temp_prep_no_shortcircuit_cex :
    get_water_temp
      [⟨55, ⟨2025, 10, 12, 10⟩⟩, ⟨40, ⟨2025, 10, 12, 11⟩⟩, ⟨100, ⟨2025, 10, 12, 12⟩⟩]
      cfgPrepNoon 10 ⟨2025, 10, 12, 10⟩ '1' = some 54 ∧
    water_prep_needed
      [⟨40, ⟨2025, 10, 12, 11⟩⟩, ⟨55, ⟨2025, 10, 12, 10⟩⟩, ⟨100, ⟨2025, 10, 12, 12⟩⟩]
      [⟨55, ⟨2025, 10, 12, 10⟩⟩, ⟨40, ⟨2025, 10, 12, 11⟩⟩, ⟨100, ⟨2025, 10, 12, 12⟩⟩]
      12 2 1 1 cfgPrepNoon 10 = (true, false) := by
  constructor
  · norm_num [get_water_temp, classify, filter_prices_low, filter_prices_high,
      sortByValue, priceLE, low_cutpoint, high_cutpoint, price_apply,
      water_prep_needed, check_noneed, pyint, cfgPrepNoon, defaults]
  · norm_num [water_prep_needed, pyint, cfgPrepNoon, defaults]

/-- C6, amended: prep windows are evaluated in list order and the first
window answering authoritative AND heat makes `get_water_temp` return
`wwcheaptemp`; an authoritative answer that says not to heat does not
short-circuit — later windows and the low/high price fallback still run
(the loop at lines 484-494 only returns when `auth and heat`). -/
theorem water_temp_prep_heat_first (all_prices : List Price) (cfg : Config) (t : ℚ)
    (today : Timestamp) (dow : Char) (p2 low high : List Price)
    (hbed : ¬ t ≥ cfg.bedtime - cfg.wwcooldown)
    (hcl : classify all_prices cfg today = some (p2, low, high))
    (hnn : ∀ nn ∈ cfg.noneed, check_noneed nn t dow = false)
    (hprep : ∃ w ∈ cfg.prepww,
      water_prep_needed p2 all_prices w.needhour w.earliest w.duration w.preptime cfg t =
        (true, true)) :
    get_water_temp all_prices cfg t today dow = some cfg.wwcheaptemp := by
  have hnn2 : (cfg.noneed.any fun nn => check_noneed nn t dow) = false := by
    rw [List.any_eq_false]
    intro nn h
    rw [hnn nn h]
    exact Bool.false_ne_true
  have hp : (cfg.prepww.any fun w =>
      (water_prep_needed p2 all_prices
          w.needhour w.earliest w.duration w.preptime cfg t).1 &&
        (water_prep_needed p2 all_prices
          w.needhour w.earliest w.duration w.preptime cfg t).2) = true := by
    rw [List.any_eq_true]
    obtain ⟨w, hw, hww⟩ := hprep
    refine ⟨w, hw, ?_⟩
    simp [hww]
  rw [get_water_temp, if_neg hbed, hcl]
  simp [hnn2, hp]

/-- C6, witness: at `t = 11` the same prep window answers `(true, true)`
(hour 11 is the cheapest remaining slot before noon), and the theorem
gives `wwcheaptemp`. -/
theorem water_temp_prep_heat_first_app :
    get_water_temp
      [⟨55, ⟨2025, 10, 12, 10⟩⟩, ⟨40, ⟨2025, 10, 12, 11⟩⟩, ⟨100, ⟨2025, 10, 12, 12⟩⟩]
      cfgPrepNoon 11 ⟨2025, 10, 12, 11⟩ '1' = some cfgPrepNoon.wwcheaptemp :=
  water_temp_prep_heat_first
    [⟨55, ⟨2025, 10, 12, 10⟩⟩, ⟨40, ⟨2025, 10, 12, 11⟩⟩, ⟨100, ⟨2025, 10, 12, 12⟩⟩]
    cfgPrepNoon 11 ⟨2025, 10, 12, 11⟩ '1'
    [⟨40, ⟨2025, 10, 12, 11⟩⟩, ⟨55, ⟨2025, 10, 12, 10⟩⟩, ⟨100, ⟨2025, 10, 12, 12⟩⟩]
    [⟨40, ⟨2025, 10, 12, 11⟩⟩, ⟨55, ⟨2025, 10, 12, 10⟩⟩]
    [⟨100, ⟨2025, 10, 12, 12⟩⟩]
    (by norm_num [cfgPrepNoon, defaults])
    (by norm_num [classify, filter_prices_low, filter_prices_high, sortByValue,
      priceLE, low_cutpoint, high_cutpoint, price_apply, cfgPrepNoon, defaults])
    (by simp [cfgPrepNoon, defaults])
    ⟨⟨2, 1, 12, 1⟩, by simp [cfgPrepNoon, defaults],
      by norm_num [water_prep_needed, pyint, cfgPrepNoon, defaults]⟩

/-! Claim C7. -/

/-- C7, counterexample: the minimum-priced point is NOT always classified
low under positive `cutter` and `maxdiff`.  On the series 200, 300 under
the default config the cutpoint is `min(320, 250, 150) = 150`, and
`200 < 150` and `200 < lowprice = 35` both fail, so the low classification
is empty. -/
theorem min_not_low_cex :
    0 < defaults.cutter ∧ 0 < defaults.maxdiff ∧
    (filter_prices_low
        [⟨200, ⟨2025, 10, 12, 0⟩⟩, ⟨300, ⟨2025, 10, 12, 1⟩⟩] defaults).map Prod.snd =
      some [] := by
  refine ⟨by norm_num [defaults], by norm_num [defaults], ?_⟩
  norm_num [filter_prices_low, sortByValue, priceLE, low_cutpoint, defaults]

/-- C7, amended: for positive `cutter` and `maxdiff`, the head `m` of the
value-sorted series — the point with the minimum value, as the second
conclusion states — is in the low classification provided its value is
below `blockprice` and is either nonzero or below a positive `lowprice`. -/
theorem min_in_low_of_below_block (p : List Price) (cfg : Config)
    (m : Price) (xs out : List Price)
    (h : filter_prices_low p cfg = some (m :: xs, out))
    (hcut : 0 < cfg.cutter) (hmd : 0 < cfg.maxdiff)
    (hblock : m.value < cfg.blockprice)
    (hnz : m.value ≠ 0 ∨ 0 < cfg.lowprice) :
    m ∈ out ∧ ∀ x ∈ p, m.value ≤ x.value := by
  obtain ⟨hsp, hout⟩ := filter_low_some h
  refine ⟨?_, sortByValue_head_le hsp⟩
  rw [hout]
  refine List.mem_filter.mpr ⟨List.mem_cons_self _ _, ?_⟩
  rw [decide_eq_true_eq]
  rcases lt_trichotomy m.value 0 with hneg | hzero | hpos
  · left
    rw [low_cutpoint, if_pos hneg]
    exact hneg.trans hmd
  · rcases hnz with hnz | hlp
    · exact absurd hzero hnz
    · right
      rw [hzero]
      exact hlp
  · left
    rw [low_cutpoint, if_neg (not_lt.mpr hpos.le)]
    refine lt_min ?_ (lt_min (by linarith) hblock)
    have hexp : m.value * (100 + cfg.cutter) / 100 =
        m.value + m.value * cfg.cutter / 100 := by
      ring
    have hpos2 : 0 < m.value * cfg.cutter / 100 := by positivity
    linarith

/-- C7, witness: on the series 50, 40 under the default config the minimum
point (value 40) satisfies the hypotheses and lands in the low
classification. -/
theorem min_in_low_app :
    (⟨40, ⟨2025, 10, 12, 0⟩⟩ : Price) ∈
      ([⟨40, ⟨2025, 10, 12, 0⟩⟩, ⟨50, ⟨2025, 10, 12, 1⟩⟩] : List Price) :=
  (min_in_low_of_below_block [⟨50, ⟨2025, 10, 12, 1⟩⟩, ⟨40, ⟨2025, 10, 12, 0⟩⟩] defaults
    ⟨40, ⟨2025, 10, 12, 0⟩⟩ [⟨50, ⟨2025, 10, 12, 1⟩⟩]
    [⟨40, ⟨2025, 10, 12, 0⟩⟩, ⟨50, ⟨2025, 10, 12, 1⟩⟩]
    (by norm_num [filter_prices_low, sortByValue, priceLE, low_cutpoint, defaults])
    (by norm_num [defaults]) (by norm_num [defaults]) (by norm_num [defaults])
    (Or.inl (by norm_num))).1

/-! Claim C8. -/

/-- C8, counterexample: the classifiers do NOT leave the list in its time
order.  On the input with values 50 (hour 1) then 30 (hour 0), the
post-state of the list argument after `filter_prices_low` is the
value-sorted list, which differs from the input. -/
theorem classification_reorders_cex :
    (filter_prices_low
        [⟨50, ⟨2025, 10, 12, 1⟩⟩, ⟨30, ⟨2025, 10, 12, 0⟩⟩] defaults).map Prod.fst =
      some [⟨30, ⟨2025, 10, 12, 0⟩⟩, ⟨50, ⟨2025, 10, 12, 1⟩⟩] ∧
    ([⟨30, ⟨2025, 10, 12, 0⟩⟩, ⟨50, ⟨2025, 10, 12, 1⟩⟩] : List Price) ≠
      [⟨50, ⟨2025, 10, 12, 1⟩⟩, ⟨30, ⟨2025, 10, 12, 0⟩⟩] := by
  constructor
  · norm_num [filter_prices_low, sortByValue, priceLE, low_cutpoint, defaults]
  · decide

/-- C8, amended: both classifiers re-sort the list in place by ascending
value, so the list ends as a permutation of its input (same elements, value
order rather than time order), and each returned classification is a
subset of the input. -/
theorem classification_perm_subset (p : List Price) (cfg : Config) :
    (∀ s out, filter_prices_low p cfg = some (s, out) → s.Perm p ∧ out ⊆ p) ∧
    (∀ s out, filter_prices_high p cfg = some (s, out) → s.Perm p ∧ out ⊆ p) := by
  constructor
  · intro s out h
    obtain ⟨h1, h2⟩ := filter_low_post h
    have hperm : s.Perm p := h1 ▸ sortByValue_perm p
    exact ⟨hperm, h2.subset.trans hperm.subset⟩
  · intro s out h
    obtain ⟨h1, h2⟩ := filter_high_post h
    have hperm : s.Perm p := h1 ▸ sortByValue_perm p
    exact ⟨hperm, h2.subset.trans hperm.subset⟩

/-- C8, witness: instantiation on the two-point series 50 (hour 1), 30
(hour 0) under the default config, for both classifiers. -/
theorem classification_perm_subset_app :
    (([⟨30, ⟨2025, 10, 12, 0⟩⟩, ⟨50, ⟨2025, 10, 12, 1⟩⟩] : List Price).Perm
        [⟨50, ⟨2025, 10, 12, 1⟩⟩, ⟨30, ⟨2025, 10, 12, 0⟩⟩] ∧
      ([⟨30, ⟨2025, 10, 12, 0⟩⟩] : List Price) ⊆
        [⟨50, ⟨2025, 10, 12, 1⟩⟩, ⟨30, ⟨2025, 10, 12, 0⟩⟩]) ∧
    (([⟨30, ⟨2025, 10, 12, 0⟩⟩, ⟨50, ⟨2025, 10, 12, 1⟩⟩] : List Price).Perm
        [⟨50, ⟨2025, 10, 12, 1⟩⟩, ⟨30, ⟨2025, 10, 12, 0⟩⟩] ∧
      ([] : List Price) ⊆ [⟨50, ⟨2025, 10, 12, 1⟩⟩, ⟨30, ⟨2025, 10, 12, 0⟩⟩]) :=
  ⟨(classification_perm_subset
        [⟨50, ⟨2025, 10, 12, 1⟩⟩, ⟨30, ⟨2025, 10, 12, 0⟩⟩] defaults).1
      [⟨30, ⟨2025, 10, 12, 0⟩⟩, ⟨50, ⟨2025, 10, 12, 1⟩⟩] [⟨30, ⟨2025, 10, 12, 0⟩⟩]
      (by norm_num [filter_prices_low, sortByValue, priceLE, low_cutpoint, defaults]),
    (classification_perm_subset
        [⟨50, ⟨2025, 10, 12, 1⟩⟩, ⟨30, ⟨2025, 10, 12, 0⟩⟩] defaults).2
      [⟨30, ⟨2025, 10, 12, 0⟩⟩, ⟨50, ⟨2025, 10, 12, 1⟩⟩] []
      (by norm_num [filter_prices_high, sortByValue, priceLE, high_cutpoint, defaults])⟩

/-! Claim C9. -/

/-- C9, counterexample: `price_apply` keeps a point from a DIFFERENT month:
a September 12 point passes against an October 12 today, although the two
timestamps do not lie on the same local date. -/
theorem price_apply_ignores_month_cex :
    price_apply ⟨50, ⟨2025, 9, 12, 0⟩⟩ defaults ⟨2025, 10, 12, 10⟩ = true ∧
    sameLocalDate (⟨2025, 9, 12, 0⟩ : Timestamp) ⟨2025, 10, 12, 10⟩ = false := by
  constructor <;> decide

/-- C9, amended: `price_apply` keeps a point exactly when its timestamp's
day-of-month equals today's day-of-month; month and year are not
compared. -/
theorem price_apply_day_iff (x : Price) (cfg : Config) (today : Timestamp) :
    price_apply x cfg today = true ↔ x.timestamp.day = today.day := by
  simp [price_apply]

/-! Claim C10. -/

/-- Test override entry for claim C10: window 0..100, hot-water temp 50,
curve 22, parallel 0 — curve and parallel equal to the default config's
`heatdefaultcurve` and `heatdefaultpara`. -/
def cfgOvInt : Override := ⟨some 0, some 100, 50, 22, 0⟩

/-- C10: the two paths scale differently.  For integer configured values
`cv`, `pv` equal on both paths, an active override commands registers
`int(cv*10), int(pv*10)`, which is ten times the computed path's default
command `int(cv), int(pv)` (here the current hour matches no price point,
so the computed path stays on its baseline). -/
theorem override_computed_scale (cv pv : Int) (cfg : Config) (ov : Override)
    (s e now : ℚ) (all_prices : List Price) (t : ℚ) (today : Timestamp) (c : HeatValues)
    (hdc : cfg.heatdefaultcurve = (cv : ℚ)) (hdp : cfg.heatdefaultpara = (pv : ℚ))
    (hoc : ov.curve = (cv : ℚ)) (hop : ov.para = (pv : ℚ))
    (hs : ov.start = some s) (he : ov.stop = some e)
    (h1 : s ≤ now) (h2 : now ≤ e)
    (hg : get_heat_curve all_prices cfg t today = some c)
    (hnm : ∀ p ∈ all_prices, p.timestamp.hour ≠ pyint t) :
    override_active ⟨cfg, some [ov]⟩ now =
      .triple true ov.wwtemp ⟨10 * c.curve, 10 * c.parallel⟩ := by
  cases hcl : classify all_prices cfg today with
  | none => rw [get_heat_curve, hcl] at hg; cases hg
  | some r =>
    obtain ⟨p2, low, high⟩ := r
    obtain ⟨hlsub, hhsub⟩ := classify_subsets hcl
    have hlow : (low.any fun p => pyint t == p.timestamp.hour) = false := by
      rw [List.any_eq_false]
      intro p hp
      simpa using (hnm p (hlsub hp)).symm
    have hhigh : (high.any fun p => pyint t == p.timestamp.hour) = false := by
      rw [List.any_eq_false]
      intro p hp
      simpa using (hnm p (hhsub hp)).symm
    rw [get_heat_curve, hcl] at hg
    simp only [hlow, hhigh, Bool.false_eq_true, if_false, Option.some.injEq] at hg
    subst hg
    simp only [override_active, override_scan, hs, he]
    rw [if_pos ⟨h1, h2⟩, hoc, hop, hdc, hdp]
    have e1 : (cv : ℚ) * 10 = ((cv * 10 : Int) : ℚ) := by push_cast; ring
    have e2 : (pv : ℚ) * 10 = ((pv * 10 : Int) : ℚ) := by push_cast; ring
    rw [e1, e2, pyint_intCast, pyint_intCast, pyint_intCast, pyint_intCast]
    congr 1
    ring_nf

/-- C10, witness: with the default config (curve 22, parallel 0), a
matching override configured with the same values, and a series with no
point at the current hour, the override path commands `(220, 0)` — ten
times the computed path's `(22, 0)`. -/
theorem override_computed_scale_app :
    override_active ⟨defaults, some [cfgOvInt]⟩ 5 =
      .triple true 50 ⟨220, 0⟩ :=
  override_computed_scale 22 0 defaults cfgOvInt 0 100 5
    [⟨50, ⟨2025, 10, 12, 10⟩⟩] 3 ⟨2025, 10, 12, 3⟩ ⟨22, 0⟩
    rfl rfl rfl rfl rfl rfl (by norm_num) (by norm_num)
    (by norm_num [get_heat_curve, classify, filter_prices_low, filter_prices_high,
      sortByValue, priceLE, low_cutpoint, high_cutpoint, price_apply, pyint, defaults])
    (by norm_num [pyint])
